import Mathlib

/-!
Shallow embedding of the spotify-playlist-splitter core:
  - src/ml/train_kmeans.py  (metadata feature builders, silhouette gate, assignments)
  - src/utils/SpotifyFeaturesDSP.py  (key/mode, time-signature heuristic, crest factor,
    harmonic/percussive ratio)

Python runtime values that can occur in a track record are modelled by `PyVal`.
Machine floats are modelled by exact rationals; every comparison the claims
depend on is either structural or an order comparison that transfers verbatim.
Raising code is modelled in `Except`; a Python function that cannot raise is
embedded as a pure function.
-/

namespace SpotSplit

/-- A JSON-like Python value as found in a track record. Numbers (int/float)
are collapsed into one rational-valued case. A dict is an association list
with distinct keys (Python dict); insertion order is preserved. -/
inductive PyVal where
  | none
  | bool (b : Bool)
  | num (q : ℚ)
  | str (s : String)
  | list (xs : List PyVal)
  | dict (xs : List (String × PyVal))

/-- Python truthiness (`bool(x)`), as used by `or` in the source. -/
def pyTruthy : PyVal → Bool
  | PyVal.none => false
  | PyVal.bool b => b
  | PyVal.num q => q != 0
  | PyVal.str s => s != ""
  | PyVal.list xs => !xs.isEmpty
  | PyVal.dict xs => !xs.isEmpty

/-- `d.get(k)` on a value already known to be a dict: the stored value, or
`None` when the key is missing. -/
def pyDictGet (d : List (String × PyVal)) (k : String) : PyVal :=
  match d.lookup k with
  | some v => v
  | Option.none => PyVal.none

/-- `v.get(k)` on an arbitrary value: only dicts have a `get` attribute, every
other receiver raises `AttributeError`. -/
def pyGetMethod (v : PyVal) (k : String) : Except String PyVal :=
  match v with
  | PyVal.dict d => Except.ok (pyDictGet d k)
  | _ => Except.error "AttributeError"

/-- Python `a or b`. -/
def pyOr (a b : PyVal) : PyVal := if pyTruthy a then a else b

/-- Rendering of a value inside an f-string (used only to build the feature
name in the value/probability fallback). The exact rendering of containers is
irrelevant to every claim, so they get a fixed placeholder. -/
def pyStr : PyVal → String
  | PyVal.none => "None"
  | PyVal.bool true => "True"
  | PyVal.bool false => "False"
  | PyVal.num q => toString q
  | PyVal.str s => s
  | PyVal.list _ => "<list>"
  | PyVal.dict _ => "<dict>"

/-- Embeds `safe_num` from src/ml/train_kmeans.py: `None` stays `None`,
`float(x)` succeeds on numbers and booleans and the `try/except` turns every
conversion failure into `None`. (Numeric string literals, which CPython would
also convert, are not modelled: catalogs carry JSON numbers, and no claim
depends on which values count as numeric.) -/
def safe_num : PyVal → Option ℚ
  | PyVal.none => Option.none
  | PyVal.bool b => some (if b then 1 else 0)
  | PyVal.num q => some q
  | PyVal.str _ => Option.none
  | PyVal.list _ => Option.none
  | PyVal.dict _ => Option.none

/-- A feature map under construction: Python dict from feature name to float,
insertion ordered. -/
abbrev FeatMap := List (String × ℚ)

/-- Python `out[k] = v`: overwrite in place when the key exists, else append. -/
def dictInsert : FeatMap → String → ℚ → FeatMap
  | [], k, v => [(k, v)]
  | (k', v') :: rest, k, v =>
    if k' = k then (k, v) :: rest else (k', v') :: dictInsert rest k v

/-- `brainz = track.get("brainz") or {}` (train_kmeans.py line 29). -/
def brainzOf (track : List (String × PyVal)) : PyVal :=
  if pyTruthy (pyDictGet track "brainz") then pyDictGet track "brainz" else PyVal.dict []

/-- `ab = brainz.get("acousticHighLevel")` (line 30) — raises when `brainz`
is a truthy non-dict. -/
def abOf (track : List (String × PyVal)) : Except String PyVal :=
  pyGetMethod (brainzOf track) "acousticHighLevel"

/-- `high = ab.get("highlevel")`, falling back to the whole block when that is
not a dict (lines 34-37). -/
def highOf (abd : List (String × PyVal)) : List (String × PyVal) :=
  match pyDictGet abd "highlevel" with
  | PyVal.dict hd => hd
  | _ => abd

/-- Inner loop over a recognized class→probability table (lines 46-50). -/
def absorbProbs (out : FeatMap) (clf : String) (pd : List (String × PyVal)) : FeatMap :=
  pd.foldl (fun out p =>
    match safe_num p.2 with
    | some q => dictInsert out ("ab__" ++ clf ++ "__" ++ p.1) q
    | Option.none => out) out

/-- One iteration of the classifier loop (lines 40-56): non-dict classifier
objects are skipped; `all`/`probabilities` tables are flattened; otherwise the
value/probability pair form is tried. -/
def absorbClf (out : FeatMap) (clf : String) (obj : PyVal) : FeatMap :=
  match obj with
  | PyVal.dict cd =>
    match pyOr (pyDictGet cd "all") (pyDictGet cd "probabilities") with
    | PyVal.dict pd => absorbProbs out clf pd
    | _ =>
      match pyDictGet cd "value", safe_num (pyDictGet cd "probability") with
      | PyVal.none, _ => out
      | v, some q => dictInsert out ("ab__" ++ clf ++ "__" ++ pyStr v) q
      | _, Option.none => out
  | _ => out

/-- The classifier features accumulated over the `high` items of a recognized
`acousticHighLevel` dict (lines 39-56). -/
def abFeaturesOfDict (abd : List (String × PyVal)) : FeatMap :=
  (highOf abd).foldl (fun out p => absorbClf out p.1 p.2) []

/-- Embeds `extract_ab_features` from src/ml/train_kmeans.py (lines 22-60).
The only raising step is the attribute access modelled by `abOf`; a non-dict
`acousticHighLevel` returns the empty map; a dict one gets the flattened
classifier features plus `ab__has_acousticbrainz = 1.0` (line 59). -/
def extract_ab_features (track : List (String × PyVal)) : Except String FeatMap :=
  match abOf track with
  | Except.error e => Except.error e
  | Except.ok (PyVal.dict abd) =>
    Except.ok (dictInsert (abFeaturesOfDict abd) "ab__has_acousticbrainz" 1)
  | Except.ok _ => Except.ok []

/-- The attribute names of the direct-attribute builder (line 67). -/
def sp_attrs : List String :=
  ["energy", "valence", "danceability", "tempo", "popularity", "year"]

/-- Embeds `extract_spotify_features` (lines 63-72): for each attribute, the
value (or 0.0) and then the presence flag are written into `out`. -/
def extract_spotify_features (track : List (String × PyVal)) : FeatMap :=
  sp_attrs.foldl (fun out k =>
    dictInsert
      (dictInsert out ("sp__" ++ k)
        (match safe_num (pyDictGet track k) with
         | some q => q
         | Option.none => 0))
      ("sp__has_" ++ k)
      (match safe_num (pyDictGet track k) with
       | some _ => 1
       | Option.none => 0)) []

/-- The value emitted for one attribute (`0.0 if v is None else v`). -/
def spVal (track : List (String × PyVal)) (k : String) : ℚ :=
  match safe_num (pyDictGet track k) with
  | some q => q
  | Option.none => 0

/-- The presence flag emitted for one attribute (`0.0 if v is None else 1.0`). -/
def spHas (track : List (String × PyVal)) (k : String) : ℚ :=
  match safe_num (pyDictGet track k) with
  | some _ => 1
  | Option.none => 0

/-! DSP part: src/utils/SpotifyFeaturesDSP.py. The librosa outputs feeding
each method (chroma profile, onset envelope, beat list, beat-synchronous
accents, harmonic/percussive components) are external inputs, so the embedded
functions take them as arguments; everything after those calls is translated
line by line. -/

/-- `np.mean` over a list of rationals (0 on the empty list; the sources only
apply it to non-empty data on the paths the claims touch). -/
def npMean (l : List ℚ) : ℚ := l.sum / (l.length : ℚ)

/-- `beat_env - np.mean(beat_env)` (line 159). -/
def centered (x : List ℚ) : List ℚ := x.map (fun a => a - npMean x)

/-- Square of `np.std`: `np.std(x) < t` (for `t > 0`) iff `npStdSq x < t^2`,
which keeps the comparison inside ℚ. -/
def npStdSq (x : List ℚ) : ℚ := npMean (x.map (fun a => (a - npMean x) ^ 2))

/-- Non-negative-lag autocorrelation value `ac[k]` of
`np.correlate(x, x, mode="full")[len//2:]` (lines 164-165). -/
def acLag (x : List ℚ) (k : Nat) : ℚ :=
  ((List.range (x.length - k)).map (fun i => x.getD i 0 * x.getD (i + k) 0)).sum

/-- Number of detected beats (`len(beats)`, with the `beats is None` guard). -/
def beatCount : Option (List Nat) → Nat
  | Option.none => 0
  | some bs => bs.length

/-- Embeds `AudioFeatureExtractor.time_signature_guess` (lines 147-178).
`beats` is the beat-tracker output and `env` the beat-synchronous accent
sequence produced by `librosa.util.sync`; both are external inputs. The
guard `beats is None or len(beats) < 8` is encoded as `beatCount beats < 8`
(`beatCount none = 0 < 8`), and the `np.std(beat_env) < 1e-6` test is encoded
on squares as `npStdSq (centered env) < 1e-12`. -/
def time_signature_guess (beats : Option (List Nat)) (env : List ℚ) : Nat × ℚ :=
  if beatCount beats < 8 then (4, 0)
  else if npStdSq (centered env) < 1 / 10 ^ 12 then (4, 0)
  else if (centered env).length ≤ 5 then (4, 0)
  else if acLag (centered env) 4 < acLag (centered env) 3 then
    (3, (acLag (centered env) 3 - acLag (centered env) 4) /
        (|acLag (centered env) 3| + |acLag (centered env) 4| + 1 / 10 ^ 12))
  else
    (4, (acLag (centered env) 4 - acLag (centered env) 3) /
        (|acLag (centered env) 3| + |acLag (centered env) 4| + 1 / 10 ^ 12))

/-- Krumhansl major template (line 123). -/
def majorTemplate : List ℚ :=
  [635/100, 223/100, 348/100, 233/100, 438/100, 409/100,
   252/100, 519/100, 239/100, 366/100, 229/100, 288/100]

/-- Krumhansl minor template (line 124). -/
def minorTemplate : List ℚ :=
  [633/100, 268/100, 352/100, 538/100, 260/100, 353/100,
   254/100, 475/100, 398/100, 269/100, 334/100, 317/100]

/-- `template / template.sum()` (lines 125-126). -/
def l1norm (t : List ℚ) : List ℚ := t.map (fun a => a / t.sum)

/-- Normalized major template. -/
def majorN : List ℚ := l1norm majorTemplate

/-- Normalized minor template. -/
def minorN : List ℚ := l1norm minorTemplate

/-- `chroma_mean / (np.sum(chroma_mean) + 1e-12)` (line 120); the raw
time-averaged chroma profile is the external librosa input. -/
def chromaNorm (c : List ℚ) : List ℚ := c.map (fun a => a / (c.sum + 1 / 10 ^ 12))

/-- `np.roll(t, k)`: element `i` of the result is `t[(i - k) mod len t]`. -/
def roll (t : List ℚ) (k : Nat) : List ℚ :=
  t.drop (t.length - k % t.length) ++ t.take (t.length - k % t.length)

/-- `np.dot` on equal-length vectors. -/
def dot (a b : List ℚ) : ℚ := ((a.zip b).map (fun p => p.1 * p.2)).sum

/-- The twelve rotation correlations of `best_corr` (lines 128-131). -/
def corrList (chroma template : List ℚ) : List ℚ :=
  (List.range 12).map (fun k => dot chroma (roll template k))

/-- Combined `np.argmax`/`np.max` scan: first index attaining the maximum,
with the maximum itself. -/
def scanMax (bi : Nat) (bv : ℚ) (i : Nat) : List ℚ → Nat × ℚ
  | [] => (bi, bv)
  | x :: xs => if bv < x then scanMax i x (i + 1) xs else scanMax bi bv (i + 1) xs

/-- `best_corr(template)` (lines 128-133): `(int(np.argmax(corrs)), float(np.max(corrs)))`. -/
def bestCorr (chroma template : List ℚ) : Nat × ℚ :=
  match corrList chroma template with
  | [] => (0, 0)
  | c :: cs => scanMax 0 c 1 cs

/-- Embeds `AudioFeatureExtractor.key_and_mode` (lines 111-145) as a function
of the raw time-averaged chroma profile: `if cM >= cm` picks major. -/
def key_and_mode (c : List ℚ) : Nat × Nat × ℚ :=
  if (bestCorr (chromaNorm c) minorN).2 ≤ (bestCorr (chromaNorm c) majorN).2 then
    ((bestCorr (chromaNorm c) majorN).1, 1,
      (bestCorr (chromaNorm c) majorN).2 - (bestCorr (chromaNorm c) minorN).2)
  else
    ((bestCorr (chromaNorm c) minorN).1, 0,
      (bestCorr (chromaNorm c) minorN).2 - (bestCorr (chromaNorm c) majorN).2)

/-- `np.max(np.abs(y))` (line 76). -/
def peak (y : List ℚ) : ℚ := (y.map (fun a => |a|)).foldr max 0

/-- Square of the RMS, `np.mean(y ** 2)` (line 79). -/
def rmsSq (y : List ℚ) : ℚ := npMean (y.map (fun a => a ^ 2))

/-- Square of the guarded peak/RMS ratio of `crest_factor_db` (lines 78-82):
with `p = max(peak, 1e-12)` and `r = max(rms, 1e-12)`, the source returns
`20*log10(p/r) = 10*log10(crestRatioSq)`, so sign and zero statements about
the dB value transfer to `crestRatioSq` against 1. -/
def crestRatioSq (y : List ℚ) : ℚ :=
  (max (peak y) (1 / 10 ^ 12)) ^ 2 / max (rmsSq y) ((1 / 10 ^ 12) ^ 2)

/-- Embeds `AudioFeatureExtractor.harmonic_percussive_ratio` (lines 195-199)
as a function of the two hpss components: `eh / (eh + ep + 1e-12)` with
`eh = np.mean(y_harm ** 2)` and `ep = np.mean(y_perc ** 2)`. -/
def harmonic_percussive_ratio (yh yp : List ℚ) : ℚ :=
  npMean (yh.map (fun a => a ^ 2)) /
    (npMean (yh.map (fun a => a ^ 2)) + npMean (yp.map (fun a => a ^ 2)) + 1 / 10 ^ 12)

/-- Embeds the silhouette gate of `main` (train_kmeans.py lines 113-122):
`sample_n = min(silhouette_sample, n)`, the estimate is computed only when
`sample_n >= 50 and k >= 2`, and `score` is the outcome of the guarded
`silhouette_score` call (`none` models the except branch). -/
def silhouette_export (cap n k : Nat) (score : Option ℚ) : Option ℚ :=
  if 50 ≤ min cap n ∧ 2 ≤ k then score else Option.none

/-- A raw input track record. -/
abbrev Track := List (String × PyVal)

/-- One exported per-track assignment record (lines 127-132). -/
structure ClusterAssignment where
  spotifyId : PyVal
  name : PyVal
  artists : PyVal
  cluster : Int

/-- Embeds the assignment loop of `main` (lines 124-132):
`for t, lab in zip(tracks, labels)`. `labels` is the external
`MiniBatchKMeans.fit_predict` output (one label per input row). -/
def assignments (tracks : List Track) (labels : List Int) : List ClusterAssignment :=
  (tracks.zip labels).map (fun tl =>
    { spotifyId := pyDictGet tl.1 "id"
      name := pyDictGet tl.1 "name"
      artists := pyDictGet tl.1 "artists"
      cluster := tl.2 })

/-- C1 counterexample input: an `acousticHighLevel` block that is a dict but
contains no recognizable classifier structure at all. -/
def c1cTrack : Track := [("brainz", PyVal.dict [("acousticHighLevel", PyVal.dict [])])]

/-- C1 witness input: one recognized classifier with a probability table. -/
def c1wTrack : Track :=
  [("brainz", PyVal.dict [("acousticHighLevel", PyVal.dict
    [("danceability", PyVal.dict [("all", PyVal.dict [("danceable", PyVal.num (9/10))])])])])]

/-- The feature map produced for `c1wTrack`. -/
def c1wMap : FeatMap := [("ab__danceability__danceable", 9/10), ("ab__has_acousticbrainz", 1)]

/-- C2 failing input: a truthy non-dict under the `brainz` key. -/
def c2Track : Track := [("brainz", PyVal.num 5)]

/-! Helper lemmas. -/

theorem lookup_dictInsert_self (m : FeatMap) (k : String) (v : ℚ) :
    (dictInsert m k v).lookup k = some v := by
  induction m with
  | nil => simp [dictInsert]
  | cons p rest ih =>
    by_cases h : p.1 = k
    · simp [dictInsert, h]
    · have hb : (k == p.1) = false := beq_eq_false_iff_ne.mpr (Ne.symm h)
      simp [dictInsert, h, List.lookup, hb, ih]

/-- The final feature map of the direct-attribute builder, entry by entry. -/
theorem sp_shape (track : Track) : extract_spotify_features track =
    [("sp__energy", spVal track "energy"), ("sp__has_energy", spHas track "energy"),
     ("sp__valence", spVal track "valence"), ("sp__has_valence", spHas track "valence"),
     ("sp__danceability", spVal track "danceability"),
     ("sp__has_danceability", spHas track "danceability"),
     ("sp__tempo", spVal track "tempo"), ("sp__has_tempo", spHas track "tempo"),
     ("sp__popularity", spVal track "popularity"),
     ("sp__has_popularity", spHas track "popularity"),
     ("sp__year", spVal track "year"), ("sp__has_year", spHas track "year")] := rfl

/-! Claims. -/

/-- C1 counterexample. The claim says the has-data flag is 1.0 only when at
least one nested classifier structure was recognized, and 0.0/absent
otherwise. On a track whose `acousticHighLevel` block is an empty dict the
builder recognizes nothing, yet the produced map consists of exactly the flag
with value 1.0 (neither 0.0 nor absent). -/
theorem c1_counterexample :
    extract_ab_features c1cTrack = Except.ok [("ab__has_acousticbrainz", 1)] ∧
    (1 : ℚ) ≠ 0 := ⟨rfl, by norm_num⟩

/-- C1 amended: the builder emits `ab__has_acousticbrainz = 1.0` exactly when
the `acousticHighLevel` block is a dict — regardless of whether any nested
classifier structure was recognized — and emits no features at all (so the
flag is absent, never 0.0) when the block is missing or not a dict. -/
theorem c1_flag_iff_ab_dict (track : Track) (m : FeatMap)
    (h : extract_ab_features track = Except.ok m) :
    (m.lookup "ab__has_acousticbrainz" = some 1 ↔
      ∃ abd, abOf track = Except.ok (PyVal.dict abd)) ∧
    ((∀ abd, abOf track ≠ Except.ok (PyVal.dict abd)) → m = []) := by
  unfold extract_ab_features at h
  rcases hab : abOf track with e | v
  · rw [hab] at h; cases h
  · rw [hab] at h
    cases v with
    | dict abd =>
      cases h
      constructor
      · exact ⟨fun _ => ⟨abd, rfl⟩, fun _ => lookup_dictInsert_self ..⟩
      · intro hno; exact absurd rfl (hno abd)
    | none => cases h; simp
    | bool b => cases h; simp
    | num q => cases h; simp
    | str s => cases h; simp
    | list xs => cases h; simp

/-- C1 witness: on a track with one recognized classifier table the flag is
looked up as 1.0, via the amended theorem at that input. -/
theorem c1_flag_witness : c1wMap.lookup "ab__has_acousticbrainz" = some 1 :=
  (c1_flag_iff_ab_dict c1wTrack c1wMap rfl).1.mpr
    ⟨[("danceability", PyVal.dict [("all", PyVal.dict [("danceable", PyVal.num (9/10))])])],
     rfl⟩

/-- C2: the spec says malformed metadata shapes never raise, but a truthy
non-dict value under `brainz` (for example the number 5) makes
`brainz.get("acousticHighLevel")` raise `AttributeError`, because the
`or {}` guard on line 29 only replaces falsy values. -/
theorem c2_brainz_nondict_raises :
    extract_ab_features c2Track = Except.error "AttributeError" := rfl

/-- C3 counterexample. The claim says the builder never yields a 0.0 value
with flag = 1.0; a track whose `energy` attribute is present and equal to 0
yields exactly that pair. -/
theorem c3_counterexample :
    (extract_spotify_features [("energy", PyVal.num 0)]).lookup "sp__energy" = some 0 ∧
    (extract_spotify_features [("energy", PyVal.num 0)]).lookup "sp__has_energy" = some 1 :=
  ⟨rfl, rfl⟩

/-- C3 amended: for every named attribute the value and the flag are a coupled
pair — a missing or non-numeric attribute yields value 0.0 and flag 0.0
together, and a present numeric attribute yields the value with flag 1.0 (so
a nonzero value never occurs with flag 0.0; a 0.0 value occurs with flag 1.0
exactly when the attribute is present with value 0). -/
theorem c3_value_flag_coupling (track : Track) (k : String) (q : ℚ) (hk : k ∈ sp_attrs) :
    (safe_num (pyDictGet track k) = Option.none →
      (extract_spotify_features track).lookup ("sp__" ++ k) = some 0 ∧
      (extract_spotify_features track).lookup ("sp__has_" ++ k) = some 0) ∧
    (safe_num (pyDictGet track k) = some q →
      (extract_spotify_features track).lookup ("sp__" ++ k) = some q ∧
      (extract_spotify_features track).lookup ("sp__has_" ++ k) = some 1) := by
  rw [show sp_attrs = ["energy", "valence", "danceability", "tempo", "popularity", "year"]
    from rfl] at hk
  rw [sp_shape]
  simp only [List.mem_cons, List.not_mem_nil, or_false] at hk
  rcases hk with rfl | rfl | rfl | rfl | rfl | rfl <;>
    exact ⟨fun h => by simp [List.lookup, spVal, spHas, h],
           fun h => by simp [List.lookup, spVal, spHas, h]⟩

/-- C3 witness: a present attribute with value 1/2 yields the value with
flag 1.0, via the coupling theorem at that input. -/
theorem c3_coupling_witness :
    (extract_spotify_features [("energy", PyVal.num (1/2))]).lookup "sp__energy" =
      some (1/2) ∧
    (extract_spotify_features [("energy", PyVal.num (1/2))]).lookup "sp__has_energy" =
      some 1 :=
  (c3_value_flag_coupling [("energy", PyVal.num (1/2))] "energy" (1/2) (by decide)).2 rfl

/-- C4 counterexample. The claim says the estimate is null exactly outside
the region catalog ≥ 50 and k ≥ 2; but with a configured sample cap of 10,
a 100-track catalog and k = 2 the export is null even though the sampled
silhouette computation succeeded (with value 1/2). -/
theorem c4_counterexample :
    silhouette_export 10 100 2 (some (1/2)) = Option.none ∧
    50 ≤ (100 : Nat) ∧ 2 ≤ (2 : Nat) := by constructor <;> [rfl; omega]

/-- C4 amended: the exported silhouette is null whenever the catalog has
fewer than 50 tracks or k < 2; and whenever it is exported as a value, the
catalog had at least 50 tracks, k was at least 2, the effective sample
`min cap n` was at least 50, and the value is the successfully computed
score, which lies in [-1, 1] by the silhouette contract. -/
theorem c4_silhouette_gate (cap n k : Nat) (score : Option ℚ) (s : ℚ)
    (hscore : ∀ t, score = some t → -1 ≤ t ∧ t ≤ 1) :
    ((n < 50 ∨ k < 2) → silhouette_export cap n k score = Option.none) ∧
    (silhouette_export cap n k score = some s →
      50 ≤ n ∧ 2 ≤ k ∧ 50 ≤ min cap n ∧ -1 ≤ s ∧ s ≤ 1) := by
  constructor
  · intro h
    unfold silhouette_export
    rw [if_neg]
    rintro ⟨h50, h2⟩
    rcases h with h | h
    · exact absurd (le_trans h50 (min_le_right cap n)) (by omega)
    · omega
  · intro h
    unfold silhouette_export at h
    by_cases hc : 50 ≤ min cap n ∧ 2 ≤ k
    · rw [if_pos hc] at h
      have hs := hscore s h
      exact ⟨le_trans hc.1 (min_le_right cap n), hc.2, hc.1, hs.1, hs.2⟩
    · rw [if_neg hc] at h
      cases h

/-- C4 witness: with the default cap 1500, 100 tracks, k = 2 and a computed
score of 0 the gate theorem applies and its conclusion is discharged. -/
theorem c4_gate_witness :
    50 ≤ (100 : Nat) ∧ 2 ≤ (2 : Nat) ∧ 50 ≤ min 1500 100 ∧
    -1 ≤ (0 : ℚ) ∧ (0 : ℚ) ≤ 1 :=
  (c4_silhouette_gate 1500 100 2 (some 0) 0
    (fun t ht => by cases ht; exact ⟨by norm_num, by norm_num⟩)).2 rfl

/-- C5: the time-signature guess is always 3 or 4; it is exactly (4, 0.0)
whenever fewer than 8 beats were detected, and whenever the mean-centered
beat-accent sequence has standard deviation below 1e-6 (encoded on squares:
variance below 1e-12). -/
theorem c5_time_signature_spec (beats : Option (List Nat)) (env : List ℚ) :
    ((time_signature_guess beats env).1 = 3 ∨ (time_signature_guess beats env).1 = 4) ∧
    (beatCount beats < 8 → time_signature_guess beats env = (4, 0)) ∧
    (npStdSq (centered env) < 1 / 10 ^ 12 → time_signature_guess beats env = (4, 0)) := by
  unfold time_signature_guess
  refine ⟨?_, fun h => ?_, fun h => ?_⟩
  · split_ifs <;> simp
  · rw [if_pos h]
  · by_cases h8 : beatCount beats < 8
    · rw [if_pos h8]
    · rw [if_neg h8, if_pos h]

/-- C5 witness: seven detected beats give (4, 0); eight beats over a silent
accent sequence give (4, 0); both through the main theorem. -/
theorem c5_witness :
    time_signature_guess (some [0, 1, 2, 3, 4, 5, 6]) [] = (4, 0) ∧
    time_signature_guess (some [0, 1, 2, 3, 4, 5, 6, 7])
      [0, 0, 0, 0, 0, 0, 0, 0, 0] = (4, 0) :=
  ⟨(c5_time_signature_spec (some [0, 1, 2, 3, 4, 5, 6]) []).2.1 (by decide),
   (c5_time_signature_spec (some [0, 1, 2, 3, 4, 5, 6, 7])
      [0, 0, 0, 0, 0, 0, 0, 0, 0]).2.2 (by norm_num [npStdSq, centered, npMean])⟩

/-- The argmax scan never leaves the index range it visits. -/
theorem scanMax_fst_lt (xs : List ℚ) : ∀ (bi : Nat) (bv : ℚ) (i : Nat),
    bi < i → (scanMax bi bv i xs).1 < i + xs.length := by
  induction xs with
  | nil => intro bi bv i h; simpa [scanMax] using h
  | cons x xs ih =>
    intro bi bv i h
    simp only [scanMax, List.length_cons]
    split
    · have := ih i x (i + 1) (Nat.lt_succ_self i)
      omega
    · have := ih bi bv (i + 1) (h.trans (Nat.lt_succ_self i))
      omega

/-- The best-rotation index returned by `best_corr` is below 12. -/
theorem bestCorr_fst_lt (c t : List ℚ) : (bestCorr c t).1 < 12 := by
  unfold bestCorr
  rcases hc : corrList c t with _ | ⟨c0, cs⟩
  · exact absurd (congrArg List.length hc) (by simp [corrList])
  · have hlen : cs.length = 11 := by
      have := congrArg List.length hc
      simp [corrList] at this
      omega
    have := scanMax_fst_lt cs 0 c0 1 Nat.one_pos
    rw [hlen] at this
    simpa using this

/-- C6: `key_and_mode` returns a key in 0..11, a mode in 0 or 1, a
non-negative confidence, and the confidence is the absolute gap between the
best major-family and best minor-family rotation correlations. -/
theorem c6_key_and_mode_spec (c : List ℚ) :
    (key_and_mode c).1 < 12 ∧
    ((key_and_mode c).2.1 = 0 ∨ (key_and_mode c).2.1 = 1) ∧
    0 ≤ (key_and_mode c).2.2 ∧
    (key_and_mode c).2.2 =
      |(bestCorr (chromaNorm c) majorN).2 - (bestCorr (chromaNorm c) minorN).2| := by
  unfold key_and_mode
  rcases le_or_lt (bestCorr (chromaNorm c) minorN).2 (bestCorr (chromaNorm c) majorN).2
    with h | h
  · rw [if_pos h]
    exact ⟨bestCorr_fst_lt .., Or.inr rfl, sub_nonneg.mpr h,
      (abs_of_nonneg (sub_nonneg.mpr h)).symm⟩
  · rw [if_neg (not_le.mpr h)]
    refine ⟨bestCorr_fst_lt .., Or.inl rfl, sub_nonneg.mpr h.le, ?_⟩
    rw [abs_sub_comm, abs_of_nonneg (sub_nonneg.mpr h.le)]

/-- A mean of squares is non-negative. -/
theorem npMean_sq_nonneg (l : List ℚ) : 0 ≤ npMean (l.map (fun a => a ^ 2)) := by
  unfold npMean
  apply div_nonneg
  · apply List.sum_nonneg
    intro x hx
    simp only [List.mem_map] at hx
    obtain ⟨a, -, rfl⟩ := hx
    positivity
  · positivity

/-- C7 counterexample. The claim places the ratio in the open interval (0, 1);
on a silent signal both component energies are 0 and the ratio is exactly 0,
which is not greater than 0. -/
theorem c7_counterexample :
    harmonic_percussive_ratio [0] [0] = 0 ∧
    ¬ (0 < harmonic_percussive_ratio [0] [0]) := by
  norm_num [ harmonic_percussive_ratio, npMean]

/-- C7 amended: the ratio `eh / (eh + ep + 1e-12)` lies in the half-open
interval [0, 1): it is always non-negative (0 exactly when the harmonic
energy is 0, e.g. on silence) and always strictly below 1. -/
theorem c7_ratio_bounds (yh yp : List ℚ) :
    0 ≤ harmonic_percussive_ratio yh yp ∧ harmonic_percussive_ratio yh yp < 1 := by
  have hh := npMean_sq_nonneg yh
  have hp := npMean_sq_nonneg yp
  have hd : 0 < npMean (yh.map (fun a => a ^ 2)) + npMean (yp.map (fun a => a ^ 2))
      + 1 / 10 ^ 12 := by positivity
  unfold harmonic_percussive_ratio
  constructor
  · exact div_nonneg hh hd.le
  · rw [div_lt_one hd]
    have : 0 < npMean (yp.map (fun a => a ^ 2)) + 1 / 10 ^ 12 := by positivity
    linarith

/-- C10: when the best major correlation exactly equals the best minor
correlation, `key_and_mode` picks major (mode 1) with confidence exactly 0. -/
theorem c10_tie_prefers_major (c : List ℚ)
    (h : (bestCorr (chromaNorm c) majorN).2 = (bestCorr (chromaNorm c) minorN).2) :
    key_and_mode c = ((bestCorr (chromaNorm c) majorN).1, 1, 0) := by
  unfold key_and_mode
  rw [if_pos (le_of_eq h.symm), h, sub_self]

/-- C10 witness: a degenerate chroma profile correlates to 0 against every
rotation of both templates, so the tie theorem applies and yields major with
confidence 0. -/
theorem c10_witness :
    key_and_mode [] = ((bestCorr (chromaNorm []) majorN).1, 1, 0) :=
  c10_tie_prefers_major [] (by decide)

/-- Index access through `zip`. -/
theorem zip_getElem? {α β : Type} (l : List α) (l' : List β) (i : Nat) (a : α) (b : β)
    (ha : l[i]? = some a) (hb : l'[i]? = some b) : (l.zip l')[i]? = some (a, b) := by
  induction l generalizing l' i with
  | nil => simp at ha
  | cons x xs ih =>
    cases l' with
    | nil => simp at hb
    | cons y ys =>
      cases i with
      | zero =>
        simp only [List.getElem?_cons_zero, Option.some.injEq] at ha hb
        simp [List.zip_cons_cons, ha, hb]
      | succ n =>
        simp only [List.getElem?_cons_succ] at ha hb
        simpa [List.zip_cons_cons] using ih ys n ha hb

/-- C8: the emitted assignment list has exactly one record per input track,
and the record at every index carries the identifier, display name and
display artists of the input track at that index together with its label
(input order preserved end-to-end). `labels` is the clustering output, one
label per input row. -/
theorem c8_assignments_spec (tracks : List Track) (labels : List Int) (i : Nat)
    (t : Track) (lab : Int) (hlen : labels.length = tracks.length)
    (ht : tracks[i]? = some t) (hlab : labels[i]? = some lab) :
    (assignments tracks labels).length = tracks.length ∧
    (assignments tracks labels)[i]? = some
      { spotifyId := pyDictGet t "id", name := pyDictGet t "name",
        artists := pyDictGet t "artists", cluster := lab } := by
  constructor
  · simp [assignments, hlen]
  · unfold assignments
    rw [List.getElem?_map, zip_getElem? tracks labels i t lab ht hlab]
    rfl

/-- C8 witness: a concrete two-track catalog with two labels, checked at
index 0 through the main theorem. -/
theorem c8_witness :
    (assignments [[("id", PyVal.str "a"), ("name", PyVal.str "Song"),
        ("artists", PyVal.list [PyVal.str "X"])], []] [2, 0]).length = 2 ∧
    (assignments [[("id", PyVal.str "a"), ("name", PyVal.str "Song"),
        ("artists", PyVal.list [PyVal.str "X"])], []] [2, 0])[0]? = some
      { spotifyId := PyVal.str "a", name := PyVal.str "Song",
        artists := PyVal.list [PyVal.str "X"], cluster := 2 } :=
  c8_assignments_spec
    [[("id", PyVal.str "a"), ("name", PyVal.str "Song"),
      ("artists", PyVal.list [PyVal.str "X"])], []] [2, 0] 0
    [("id", PyVal.str "a"), ("name", PyVal.str "Song"),
      ("artists", PyVal.list [PyVal.str "X"])] 2 rfl rfl rfl

/-- On an all-zero signal the peak is 0. -/
theorem peak_eq_zero_of_all_zero (y : List ℚ) (hall : ∀ a ∈ y, a = 0) : peak y = 0 := by
  induction y with
  | nil => rfl
  | cons x xs ih =>
    have hx : x = 0 := hall x (by simp)
    have hxs : peak xs = 0 := ih (fun a ha => hall a (by simp [ha]))
    show max |x| (peak xs) = 0
    simp [hx, hxs]

/-- On an all-zero signal the mean square is 0. -/
theorem rmsSq_eq_zero_of_all_zero (y : List ℚ) (hall : ∀ a ∈ y, a = 0) : rmsSq y = 0 := by
  unfold rmsSq npMean
  have : (y.map (fun a => a ^ 2)).sum = 0 := by
    apply List.sum_eq_zero
    intro x hx
    simp only [List.mem_map] at hx
    obtain ⟨a, ha, rfl⟩ := hx
    simp [hall a ha]
  rw [this, zero_div]

/-- Every element is bounded in absolute value by the peak. -/
theorem abs_le_peak {y : List ℚ} {a : ℚ} (ha : a ∈ y) : |a| ≤ peak y := by
  induction y with
  | nil => cases ha
  | cons x xs ih =>
    rcases List.mem_cons.mp ha with h | h
    · subst h
      show |a| ≤ max |a| (peak xs)
      exact le_max_left _ _
    · exact (ih h).trans (show peak xs ≤ max |x| (peak xs) from le_max_right _ _)

/-- The peak is non-negative. -/
theorem peak_nonneg (y : List ℚ) : 0 ≤ peak y := by
  induction y with
  | nil => exact le_refl 0
  | cons x xs ih => exact ih.trans (le_max_right _ _)

/-- The mean square never exceeds the squared peak. -/
theorem rmsSq_le_peakSq (y : List ℚ) (h : y ≠ []) : rmsSq y ≤ (peak y) ^ 2 := by
  have hlen : 0 < (y.length : ℚ) := by
    have : 0 < y.length := List.length_pos.mpr h
    exact_mod_cast this
  have hsum : (y.map (fun a => a ^ 2)).sum ≤ (y.map (fun a => a ^ 2)).length • (peak y) ^ 2 := by
    apply List.sum_le_card_nsmul
    intro x hx
    simp only [List.mem_map] at hx
    obtain ⟨a, ha, rfl⟩ := hx
    calc a ^ 2 = |a| ^ 2 := (sq_abs a).symm
    _ ≤ (peak y) ^ 2 := by
        have := abs_le_peak ha
        exact pow_le_pow_left (abs_nonneg a) this 2
  rw [List.length_map, nsmul_eq_mul] at hsum
  unfold rmsSq npMean
  rw [List.length_map, div_le_iff hlen]
  linarith [hsum]

/-- C9: `crest_factor_db` is non-negative on every non-empty signal, and
exactly 0 on an all-zero (silent) signal. Encoded on the squared guarded
ratio: `20*log10(p/r) ≥ 0` iff `crestRatioSq ≥ 1`, and `= 0` iff
`crestRatioSq = 1`. -/
theorem c9_crest_factor_nonneg (y : List ℚ) (h : y ≠ []) :
    1 ≤ crestRatioSq y ∧ (y.all (fun a => a == 0) = true → crestRatioSq y = 1) := by
  constructor
  · unfold crestRatioSq
    have hden : (0 : ℚ) < max (rmsSq y) ((1 / 10 ^ 12) ^ 2) :=
      lt_max_of_lt_right (by positivity)
    rw [le_div_iff hden, one_mul]
    have h1 : rmsSq y ≤ (max (peak y) (1 / 10 ^ 12)) ^ 2 := by
      refine (rmsSq_le_peakSq y h).trans ?_
      exact pow_le_pow_left (peak_nonneg y) (le_max_left _ _) 2
    have h2 : (1 / 10 ^ 12 : ℚ) ^ 2 ≤ (max (peak y) (1 / 10 ^ 12)) ^ 2 :=
      pow_le_pow_left (by positivity) (le_max_right _ _) 2
    exact max_le h1 h2
  · intro hz
    have hall : ∀ a ∈ y, a = 0 := by
      intro a ha
      exact eq_of_beq (List.all_eq_true.mp hz a ha)
    unfold crestRatioSq
    rw [peak_eq_zero_of_all_zero y hall, rmsSq_eq_zero_of_all_zero y hall]
    rw [max_eq_right (by positivity : (0:ℚ) ≤ 1 / 10 ^ 12),
        max_eq_right (by positivity : (0:ℚ) ≤ (1 / 10 ^ 12) ^ 2)]
    exact div_self (by positivity)

/-- C9 witness: the singleton silent signal is non-empty, its squared crest
ratio is at least 1 and, being all-zero, exactly 1 — both through the main
theorem. -/
theorem c9_witness : 1 ≤ crestRatioSq [0] ∧ crestRatioSq [0] = 1 :=
  ⟨(c9_crest_factor_nonneg [0] (by simp)).1,
   (c9_crest_factor_nonneg [0] (by simp)).2 (by decide)⟩

end SpotSplit
